import Mathlib

/-!
Verification of the Hebrew lecture processing backend (`src/app.py`).

The job store, the pipeline orchestration of `HebrewLectureProcessor`, and
the HTTP route handlers are shallowly embedded as pure Lean functions.
Python dicts of job records become an association list keyed by job id
(the `JobManager.jobs` dict); the `update_job(**updates)` keyword-merge
becomes a record of optional field overrides; a pipeline run that may
raise an exception at any point of its `try` block is parameterized by an
optional failure position (index of the first store update that does NOT
run, paired with the exception's message), mirroring that the `except`
clause catches every exception class.  External collaborators (reportlab
PDF byte rendering, the network, `time.sleep`) have no observable effect
on the job store and are represented by their structural content only.
-/

namespace HebrewBackend

/-- The aggregate result object built by
`HebrewLectureProcessor._generate_results` (`src/app.py:239-263`).
The float `confidence: 0.92` is recorded in hundredths. -/
structure ProcessingSummary where
  input_type : String
  source : String
  duration_detected : String
  language : String
  confidence_hundredths : Nat
  subjects_found : Nat
  examples_extracted : Nat
  methods_identified : Nat
deriving Repr, DecidableEq

/-- The `validation_summary` sub-dict of the generated results. -/
structure ValidationSummary where
  transcription_quality : String
  content_coherence : String
  hebrew_accuracy : String
  structure_detection : String
deriving Repr, DecidableEq

/-- The dict returned by `_generate_results`. -/
structure Results where
  generated_files : List String
  processing_summary : ProcessingSummary
  validation_summary : ValidationSummary
deriving Repr, DecidableEq

/-- One job record, the dict built in `JobManager.create_job`
(`src/app.py:96-108`).  Keys that are absent until some update writes
them (`completed_at`) and keys initialised to `None` (`results`,
`error`) are `Option`s, `none` meaning absent/`None`. -/
structure Job where
  job_id : String
  status : String
  progress : Nat
  current_stage : String
  message : String
  created_at : String
  input_type : String
  source : String
  options : List (String × String)
  results : Option Results
  error : Option String
  completed_at : Option String
deriving Repr, DecidableEq

/-- A keyword-argument set passed to `JobManager.update_job(job_id, **updates)`:
each field is `some v` when the caller passes that keyword. -/
structure JobUpdate where
  status : Option String
  progress : Option Nat
  current_stage : Option String
  message : Option String
  completed_at : Option String
  results : Option Results
  error : Option String
deriving Repr, DecidableEq

/-- The no-keywords update. -/
def JobUpdate.none : JobUpdate :=
  ⟨Option.none, Option.none, Option.none, Option.none, Option.none,
   Option.none, Option.none⟩

/-- Python `dict.update(updates)`: every key present in `updates`
overwrites the record's value, every other key is untouched. -/
def applyUpdate (j : Job) (u : JobUpdate) : Job :=
  { j with
    status := u.status.getD j.status
    progress := u.progress.getD j.progress
    current_stage := u.current_stage.getD j.current_stage
    message := u.message.getD j.message
    completed_at := u.completed_at.elim j.completed_at some
    results := u.results.elim j.results some
    error := u.error.elim j.error some }

/-- The `JobManager.jobs` dict: an association list, most recent binding
first; lookups read the first binding of a key. -/
def Store : Type := List (String × Job)

instance : DecidableEq Store := by
  unfold Store
  infer_instance

/-- The empty store `JobManager.__init__` starts with. -/
def Store.empty : Store := []

/-- `JobManager.get_job` (`src/app.py:119-121`): `self.jobs.get(job_id)`. -/
def getJob (s : Store) (id : String) : Option Job :=
  match s with
  | [] => Option.none
  | (k, j) :: tl => if k = id then some j else getJob tl id

/-- The fresh record built by `JobManager.create_job`
(`src/app.py:93-111`), before insertion.  `job_id` (a uuid) and
`created_at` (`datetime.now()`) are environment inputs and appear as
parameters. -/
def initialJob (job_id : String) (input_type : String) (source : String)
    (created_at : String) (options : List (String × String)) : Job :=
  { job_id := job_id
    status := "pending"
    progress := 0
    current_stage := "מקבל קובץ"
    message := "הועבר לעיבוד"
    created_at := created_at
    input_type := input_type
    source := source
    options := options
    results := Option.none
    error := Option.none
    completed_at := Option.none }

/-- `JobManager.create_job`: builds the fresh record and stores it under
its id (`self.jobs[job_id] = job`). -/
def create_job (s : Store) (job_id : String) (input_type : String)
    (source : String) (created_at : String)
    (options : List (String × String)) : Store :=
  (job_id, initialJob job_id input_type source created_at options) :: s

/-- `JobManager.update_job` (`src/app.py:113-117`): when the id is
present its record is merged with the updates; when absent the body is
skipped and the store is untouched.  Like the Python method, the result
carries no success/failure signal (the method always returns `None`). -/
def update_job (s : Store) (id : String) (u : JobUpdate) : Store :=
  match s with
  | [] => []
  | (k, j) :: tl =>
      if k = id then (k, applyUpdate j u) :: tl
      else (k, j) :: update_job tl id u

/-- `JobManager.delete_job` (`src/app.py:123-127`): deletes the record
when present, silently does nothing when absent; always returns `None`. -/
def delete_job (s : Store) (id : String) : Store :=
  match s with
  | [] => []
  | (k, j) :: tl => if k = id then tl else (k, j) :: delete_job tl id

/-- Membership of an id in the store, as Python's `job_id in self.jobs`. -/
def hasJob (s : Store) (id : String) : Prop := (getJob s id).isSome

instance (s : Store) (id : String) : Decidable (hasJob s id) := by
  unfold hasJob
  infer_instance

/-- `HebrewLectureProcessor._generate_results` (`src/app.py:239-263`). -/
def generate_results (job_id : String) (input_type : String)
    (source : String) : Results :=
  { generated_files :=
      [ job_id ++ "_transcript.pdf"
      , job_id ++ "_summary.pdf"
      , job_id ++ "_board_content.pdf" ]
    processing_summary :=
      { input_type := input_type
        source := source
        duration_detected := "35:24"
        language := "Hebrew"
        confidence_hundredths := 92
        subjects_found := 4
        examples_extracted := 7
        methods_identified := 3 }
    validation_summary :=
      { transcription_quality := "גבוהה"
        content_coherence := "טובה"
        hebrew_accuracy := "מעולה"
        structure_detection := "הצליח" } }

/-- The five updates issued by
`HebrewLectureProcessor._simulate_processing` (`src/app.py:219-237`):
progress checkpoints 25/45/65/80/95, each with its stage label and
message.  The `time.sleep(0.1)` after each has no store effect. -/
def simulateUpdates : List JobUpdate :=
  [ { JobUpdate.none with
        progress := some 25
        current_stage := some "מתמלל אודיו"
        message := some "מתמלל את תוכן ההרצאה" }
  , { JobUpdate.none with
        progress := some 45
        current_stage := some "מנתח תוכן"
        message := some "מזהה נושאים ודוגמאות" }
  , { JobUpdate.none with
        progress := some 65
        current_stage := some "מארגן נושאים"
        message := some "מסדר לפי נושאים וזמנים" }
  , { JobUpdate.none with
        progress := some 80
        current_stage := some "יוצר סיכום"
        message := some "כותב סיכום מפורט" }
  , { JobUpdate.none with
        progress := some 95
        current_stage := some "יוצר PDF"
        message := some "מכין קבצי PDF להורדה" } ]

/-- The terminal success update (`src/app.py:153-160` and `199-206`):
status `completed`, progress 100, `completed_at`, and the results. -/
def completedUpdate (completed_at : String) (results : Results) : JobUpdate :=
  { JobUpdate.none with
    status := some "completed"
    progress := some 100
    current_stage := some "הושלם"
    message := some "עיבוד הושלם בהצלחה"
    completed_at := some completed_at
    results := some results }

/-- The update issued by the `except` clause of `process_url` /
`process_file` (`src/app.py:166-170`, `212-216`): status `failed`, the
exception string as `error`, a message — and nothing else: progress,
`completed_at`, and `results` are not touched. -/
def failedUpdate (msg : String) : JobUpdate :=
  { JobUpdate.none with
    status := some "failed"
    error := some msg
    message := some ("שגיאה בעיבוד: " ++ msg) }

/-- The ordered store updates of the `try` block of
`HebrewLectureProcessor.process_url` (`src/app.py:136-162`): the initial
`processing`/10 update, the five simulated stages, then the terminal
success update.  Steps without store effect (the simulated download,
`_generate_results`, the sleeps) sit between these updates. -/
def urlUpdates (job_id : String) (url : String)
    (completed_at : String) : List JobUpdate :=
  ({ JobUpdate.none with
       status := some "processing"
       progress := some 10
       current_stage := some "מוריד קובץ"
       message := some "מוריד קובץ מהכתובת" })
    :: simulateUpdates
    ++ [completedUpdate completed_at (generate_results job_id "url" url)]

/-- The ordered store updates of the `try` block of
`HebrewLectureProcessor.process_file` (`src/app.py:173-208`): initial
`processing`/15 update, the five simulated stages, terminal success
update.  Saving the temp file, `_generate_results`, and the cleanup
`unlink` have no store effect. -/
def fileUpdates (job_id : String) (filename : String)
    (completed_at : String) : List JobUpdate :=
  ({ JobUpdate.none with
       status := some "processing"
       progress := some 15
       current_stage := some "מעלה קובץ"
       message := some "מעבד קובץ שהועלה" })
    :: simulateUpdates
    ++ [completedUpdate completed_at (generate_results job_id "file" filename)]

/-- Apply a list of updates to one job's record in order. -/
def runUpdates (s : Store) (id : String) (us : List JobUpdate) : Store :=
  us.foldl (fun acc u => update_job acc id u) s

/-- One pipeline run over its ordered updates `us`, with an optional
injected exception: `fail = none` runs the whole `try` block and returns
no exception; `fail = some (i, msg)` means an exception with message
`msg` (Python `str(e)`) is raised after the first `i` updates have been
issued and before update `i`, so the `except` clause fires: it issues
`failedUpdate msg` and re-raises (`raise`), returning the message.  The
last point at which an exception can occur is before the terminal
success update (nothing after it can raise), i.e. `i ≤ us.length - 1`. -/
def runPipeline (s : Store) (id : String) (us : List JobUpdate)
    (fail : Option (Nat × String)) : Store × Option String :=
  match fail with
  | Option.none => (runUpdates s id us, Option.none)
  | some (i, msg) =>
      (update_job (runUpdates s id (us.take i)) id (failedUpdate msg), some msg)

/-- `HebrewLectureProcessor.process_url` (`src/app.py:136-171`). -/
def process_url (s : Store) (job_id : String) (url : String)
    (completed_at : String) (fail : Option (Nat × String)) :
    Store × Option String :=
  runPipeline s job_id (urlUpdates job_id url completed_at) fail

/-- `HebrewLectureProcessor.process_file` (`src/app.py:173-217`). -/
def process_file (s : Store) (job_id : String) (filename : String)
    (completed_at : String) (fail : Option (Nat × String)) :
    Store × Option String :=
  runPipeline s job_id (fileUpdates job_id filename completed_at) fail

/-- Response of a submission route: Flask `jsonify(...), 400` on
validation failure, or the success body `{job_id, status, message}`.
(The outer `except → 500` branch of each route is unreachable in the
embedding: every failure of the processor is caught by the inner `try`
of the route, `src/app.py:405-409` and `447-451`.) -/
inductive SubmitResponse where
  | badRequest (error : String)
  | created (job_id : String) (status : String) (message : String)
deriving Repr, DecidableEq

/-- A parsed JSON body for `POST /process/url`: each field is present or
absent.  `Option.none` at the top level stands for a missing/empty body
(Python `not data`). -/
structure UrlBody where
  source_url : Option String
  input_type : Option String
  options : Option (List (String × String))
deriving Repr, DecidableEq

/-- The `POST /process/url` route handler (`src/app.py:387-419`).
Validation happens before any job is created; then the job is created
and `processor.process_url` runs to completion inline — synchronously,
before the response is produced — with its exception (if any) swallowed
by the inner `try` (`src/app.py:405-409`). -/
def route_process_url (s : Store) (body : Option UrlBody)
    (job_id : String) (created_at : String) (completed_at : String)
    (fail : Option (Nat × String)) : Store × SubmitResponse :=
  match body with
  | Option.none => (s, .badRequest "source_url is required")
  | some b =>
    match b.source_url with
    | Option.none => (s, .badRequest "source_url is required")
    | some source_url =>
        let input_type := b.input_type.getD "url"
        let options := b.options.getD []
        let s₁ := create_job s job_id input_type source_url created_at options
        let s₂ := (process_url s₁ job_id source_url completed_at fail).1
        (s₂, .created job_id "created" "הועבר לעיבוד")

/-- An uploaded multipart file: filename plus raw bytes. -/
structure UploadedFile where
  filename : String
  content : List Nat
deriving Repr, DecidableEq

/-- The `POST /process/upload` route handler (`src/app.py:420-461`).
`options` is the already-parsed form options (the route's
`json.loads`-with-fallback collapses a malformed or absent `options`
field to `{}`).  As in the URL route, `processor.process_file` runs
inline to completion before the response. -/
def route_process_upload (s : Store) (file : Option UploadedFile)
    (options : List (String × String)) (job_id : String)
    (created_at : String) (completed_at : String)
    (fail : Option (Nat × String)) : Store × SubmitResponse :=
  match file with
  | Option.none => (s, .badRequest "No file uploaded")
  | some f =>
      if f.filename = "" then (s, .badRequest "No file selected")
      else
        let s₁ := create_job s job_id "file" f.filename created_at options
        let s₂ := (process_file s₁ job_id f.filename completed_at fail).1
        (s₂, .created job_id "created" "הקובץ הועלה והועבר לעיבוד")

/-- Response of `GET /status/{job_id}` (`src/app.py:462-469`). -/
inductive StatusResponse where
  | notFound (error : String)
  | ok (job : Job)
deriving Repr, DecidableEq

/-- The `GET /status/{job_id}` handler: pure read of the store. -/
def get_job_status (s : Store) (job_id : String) : StatusResponse :=
  match getJob s job_id with
  | Option.none => .notFound "Job not found"
  | some j => .ok j

/-- The module constant `HEBREW_SAMPLE_CONTENT` (`src/app.py:39-59`),
drawn into the transcript PDF. -/
def HEBREW_SAMPLE_CONTENT : String :=
"
הרצאה בעברית - דוגמת תוכן
נושאים עיקריים:
1. מבוא לנושא (00:00-05:30)
   - הגדרות בסיסיות
   - דוגמאות ראשוניות

2. פיתוח הרעיון (05:30-15:20)
   - שיטות עבודה
   - טכניקות מתקדמות
   - דוגמאות מעשיות

3. יישומים מתקדמים (15:20-28:45)
   - פתרון בעיות מורכבות
   - גישות חדשניות
   - תרגול מעשי
4. סיכום ומסקנות (28:45-35:00)
   - נקודות מפתח
   - המלצות ליישום
   - שאלות ותשובות
"

/-- The module constant `HEBREW_SUMMARY_SAMPLE` (`src/app.py:60-86`),
drawn into the summary PDF. -/
def HEBREW_SUMMARY_SAMPLE : String :=
"
סיכום מקיף של ההרצאה
== נושאים מרכזיים ==
מבוא לנושא:
- הוסבר הצורך בהבנת המושגים הבסיסיים
- ניתנו דוגמאות מהחיים לחיזוק ההבנה
- הודגש הקשר בין התיאוריה לפרקטיקה
שיטות עבודה:
- שיטה ראשונה: גישה אנליטית המבוססת על פירוק הבעיה
- שיטה שנייה: גישה סינתטית הבונה פתרון משלם
- שיטה שלישית: גישה משולבת המקשרת בין הגישות
דוגמאות מעשיות:
1. דוגמה מהתחום הטכנולוגי
2. דוגמה מהתחום הכלכלי
3. דוגמה מהתחום החברתי
== מתודולוגיות שהוצגו ==
- ניתוח SWOT
- מיפוי תהליכים
- הערכת סיכונים
- תכנון אסטרטגי
== מסקנות ומשמעויות ==
ההרצאה הדגישה את החשיבות של:
- הבנה עמוקה של הבסיס התיאורטי
- יישום מעשי של הכלים הנלמדים
- התאמה של השיטות לצרכים הספציפיים
- הערכה מתמשכת של התוצאות
"

/-- A generated PDF document, by its drawn structure: the title string
and the source lines the generator iterates over.  The reportlab canvas
mechanics (fonts, y-coordinates, pagination, the ascii re-encoding, and
the final byte serialisation) are the excluded rendering layer; they
consume exactly this data and nothing of the job store. -/
structure PdfDoc where
  title : String
  source_lines : List String
deriving Repr, DecidableEq

/-- `PDFGenerator.generate_transcript_pdf` (`src/app.py:270-298`). -/
def generate_transcript_pdf (job_id : String) : PdfDoc :=
  { title := "Hebrew Lecture Transcript"
    source_lines := HEBREW_SAMPLE_CONTENT.splitOn "\n" }

/-- `PDFGenerator.generate_summary_pdf` (`src/app.py:300-325`). -/
def generate_summary_pdf (job_id : String) : PdfDoc :=
  { title := "Hebrew Lecture Summary"
    source_lines := HEBREW_SUMMARY_SAMPLE.splitOn "\n" }

/-- `PDFGenerator.generate_board_content_pdf` (`src/app.py:327-358`). -/
def generate_board_content_pdf (job_id : String) : PdfDoc :=
  { title := "Board & Visual Content"
    source_lines :=
      [ "Visual Content Extracted:"
      , ""
      , "1. Mathematical formulas from board"
      , "2. Diagrams and charts"
      , "3. Text written on whiteboard"
      , "4. Presentation slides content"
      , ""
      , "Note: This is a demonstration version."
      , "Full visual processing requires additional setup." ] }

/-- Response of `GET /download/{job_id}/{file_type}`
(`src/app.py:470-502`): 404 for an unknown id, 400 when the job is not
`completed`, 400 for an invalid file type, else the generated PDF sent
with `as_attachment=True` under `download_name`. -/
inductive DownloadResponse where
  | notFound (error : String)
  | notCompleted (error : String)
  | invalidFileType (error : String)
  | fileAttachment (doc : PdfDoc) (download_name : String) (mimetype : String)
deriving Repr, DecidableEq

/-- The `GET /download/{job_id}/{file_type}` handler.  It returns the
store it was given alongside the response: the handler body contains no
store write, which the embedding records by passing the store through. -/
def download_file (s : Store) (job_id : String) (file_type : String) :
    Store × DownloadResponse :=
  match getJob s job_id with
  | Option.none => (s, .notFound "Job not found")
  | some job =>
      if job.status ≠ "completed" then (s, .notCompleted "Job not completed yet")
      else if file_type = "transcript" then
        (s, .fileAttachment (generate_transcript_pdf job_id)
          ("transcript_" ++ job_id ++ ".pdf") "application/pdf")
      else if file_type = "summary" then
        (s, .fileAttachment (generate_summary_pdf job_id)
          ("summary_" ++ job_id ++ ".pdf") "application/pdf")
      else if file_type = "board_content" then
        (s, .fileAttachment (generate_board_content_pdf job_id)
          ("board_content_" ++ job_id ++ ".pdf") "application/pdf")
      else (s, .invalidFileType "Invalid file type")

/-- The claim-side contract of `update_job` from the spec's words
(`update(id, partial fields) -> void or NotFound`): an absent id is
reported as `NotFound` (here `Option.none`) instead of being silently
ignored.  Kept separate from `update_job`, which embeds the code, so the
two can be compared. -/
def update_job_specContract (s : Store) (id : String) (u : JobUpdate) :
    Option Store :=
  match getJob s id with
  | Option.none => Option.none
  | some _ => some (update_job s id u)

/-- The claim-side contract of `delete_job` from the spec's words
(`delete(id) -> void or NotFound`). -/
def delete_job_specContract (s : Store) (id : String) : Option Store :=
  match getJob s id with
  | Option.none => Option.none
  | some _ => some (delete_job s id)

-- Basic store lemmas

theorem getJob_update_self (s : Store) (id : String) (u : JobUpdate) :
    getJob (update_job s id u) id = (getJob s id).map (fun j => applyUpdate j u) := by
  induction s with
  | nil => rfl
  | cons hd tl ih =>
      obtain ⟨k, j⟩ := hd
      by_cases h : k = id
      · simp [update_job, getJob, h]
      · simp [update_job, getJob, h, ih]

theorem getJob_update_ne (s : Store) (id k' : String) (u : JobUpdate)
    (hne : k' ≠ id) :
    getJob (update_job s id u) k' = getJob s k' := by
  induction s with
  | nil => rfl
  | cons hd tl ih =>
      obtain ⟨k, j⟩ := hd
      by_cases h : k = id
      · subst h
        simp [update_job, getJob, Ne.symm hne]
      · simp [update_job, getJob, h, ih]

theorem update_job_absent (s : Store) (id : String) (u : JobUpdate)
    (h : getJob s id = Option.none) : update_job s id u = s := by
  induction s with
  | nil => rfl
  | cons hd tl ih =>
      obtain ⟨k, j⟩ := hd
      by_cases hk : k = id
      · simp [getJob, hk] at h
      · simp [getJob, hk] at h
        simp [update_job, hk, ih h]

theorem delete_job_absent (s : Store) (id : String)
    (h : getJob s id = Option.none) : delete_job s id = s := by
  induction s with
  | nil => rfl
  | cons hd tl ih =>
      obtain ⟨k, j⟩ := hd
      by_cases hk : k = id
      · simp [getJob, hk] at h
      · simp [getJob, hk] at h
        simp [delete_job, hk, ih h]

theorem getJob_create_self (s : Store) (job_id input_type source created_at : String)
    (options : List (String × String)) :
    getJob (create_job s job_id input_type source created_at options) job_id
      = some (initialJob job_id input_type source created_at options) := by
  simp [create_job, getJob]

theorem getJob_create_ne (s : Store) (job_id input_type source created_at k' : String)
    (options : List (String × String)) (hne : k' ≠ job_id) :
    getJob (create_job s job_id input_type source created_at options) k'
      = getJob s k' := by
  simp [create_job, getJob]
  intro h
  exact absurd h.symm hne

theorem getJob_runUpdates_self (us : List JobUpdate) (s : Store) (id : String) :
    getJob (runUpdates s id us) id
      = (getJob s id).map (fun j => us.foldl applyUpdate j) := by
  induction us generalizing s with
  | nil => simp [runUpdates]
  | cons u us ih =>
      have h1 : runUpdates s id (u :: us) = runUpdates (update_job s id u) id us := rfl
      rw [h1, ih, getJob_update_self]
      cases getJob s id <;> simp

theorem getJob_runUpdates_ne (us : List JobUpdate) (s : Store) (id k' : String)
    (hne : k' ≠ id) :
    getJob (runUpdates s id us) k' = getJob s k' := by
  induction us generalizing s with
  | nil => rfl
  | cons u us ih =>
      have h1 : runUpdates s id (u :: us) = runUpdates (update_job s id u) id us := rfl
      rw [h1, ih, getJob_update_ne _ _ _ _ hne]

theorem getJob_runPipeline_ne (s : Store) (id k : String) (us : List JobUpdate)
    (fl : Option (Nat × String)) (hk : k ≠ id) :
    getJob (runPipeline s id us fl).1 k = getJob s k := by
  cases fl with
  | none => exact getJob_runUpdates_ne _ _ _ _ hk
  | some p =>
      obtain ⟨i, msg⟩ := p
      show getJob (update_job (runUpdates s id (us.take i)) id (failedUpdate msg)) k
        = getJob s k
      rw [getJob_update_ne _ _ _ _ hk, getJob_runUpdates_ne _ _ _ _ hk]

theorem delete_job_length (s : Store) (id : String)
    (h : (getJob s id).isSome) :
    (delete_job s id).length + 1 = s.length := by
  induction s with
  | nil => simp [getJob] at h
  | cons hd tl ih =>
      obtain ⟨k, j⟩ := hd
      by_cases hk : k = id
      · simp [delete_job, hk]
      · simp [getJob, hk] at h
        simp [delete_job, hk, ih h]

/-- The record of a freshly created job after a prefix of pipeline
updates, in closed form. -/
theorem getJob_runUpdates_created
    (s₀ : Store) (job_id input_type source created_at : String)
    (options : List (String × String)) (us : List JobUpdate) :
    getJob (runUpdates (create_job s₀ job_id input_type source created_at options)
        job_id us) job_id
      = some (us.foldl applyUpdate (initialJob job_id input_type source created_at options)) := by
  rw [getJob_runUpdates_self, getJob_create_self]
  rfl

/-- The terminal record of a failed pipeline run, in closed form. -/
theorem getJob_runPipeline_created_fail
    (s₀ : Store) (job_id input_type source created_at msg : String)
    (options : List (String × String)) (us : List JobUpdate) (i : Nat) :
    getJob (runPipeline (create_job s₀ job_id input_type source created_at options)
        job_id us (some (i, msg))).1 job_id
      = some (applyUpdate ((us.take i).foldl applyUpdate
          (initialJob job_id input_type source created_at options))
          (failedUpdate msg)) := by
  show getJob (update_job (runUpdates _ job_id (us.take i)) job_id (failedUpdate msg))
      job_id = _
  rw [getJob_update_self, getJob_runUpdates_created]
  rfl

/-- The terminal record of a successful pipeline run, in closed form. -/
theorem getJob_runPipeline_created_ok
    (s₀ : Store) (job_id input_type source created_at : String)
    (options : List (String × String)) (us : List JobUpdate) :
    getJob (runPipeline (create_job s₀ job_id input_type source created_at options)
        job_id us Option.none).1 job_id
      = some (us.foldl applyUpdate
          (initialJob job_id input_type source created_at options)) :=
  getJob_runUpdates_created s₀ job_id input_type source created_at options us

-- C1

/-- C1: if any stage of a job's pipeline raises — modelled by an
exception with any message `msg` at any of the run's possible failure
points `i ≤ 6` — the `except` clause transitions the record to status
`failed` with the error recorded, no subsequent stage's update is
applied (the progress is exactly the checkpoint reached before the
failure point and the results are still unset), and after the pipeline
run has terminated, with or without a failure, the record's status is
never left at `processing` (nor `pending`).  Stated for both
`process_url` and `process_file`. -/
theorem c1_fail_fast
    (s₀ : Store) (job_id input_type src created_at completed_at msg : String)
    (options : List (String × String)) (i : Nat) (hi : i ≤ 6) :
    (∃ r : Job,
        getJob (process_url (create_job s₀ job_id input_type src created_at options)
            job_id src completed_at (some (i, msg))).1 job_id = some r
        ∧ r.status = "failed" ∧ r.error = some msg ∧ r.results = Option.none
        ∧ r.progress = [0, 10, 25, 45, 65, 80, 95].getD i 0 ∧ r.progress < 100)
    ∧ (∃ r : Job,
        getJob (process_file (create_job s₀ job_id input_type src created_at options)
            job_id src completed_at (some (i, msg))).1 job_id = some r
        ∧ r.status = "failed" ∧ r.error = some msg ∧ r.results = Option.none
        ∧ r.progress = [0, 15, 25, 45, 65, 80, 95].getD i 0 ∧ r.progress < 100)
    ∧ (∀ fl : Option (Nat × String), (∀ p, fl = some p → p.1 ≤ 6) →
        ∃ r : Job,
          getJob (process_url (create_job s₀ job_id input_type src created_at options)
              job_id src completed_at fl).1 job_id = some r
          ∧ r.status ≠ "processing" ∧ r.status ≠ "pending")
    ∧ (∀ fl : Option (Nat × String), (∀ p, fl = some p → p.1 ≤ 6) →
        ∃ r : Job,
          getJob (process_file (create_job s₀ job_id input_type src created_at options)
              job_id src completed_at fl).1 job_id = some r
          ∧ r.status ≠ "processing" ∧ r.status ≠ "pending") := by
  refine ⟨?_, ?_, ?_, ?_⟩
  · simp only [process_url]
    rw [getJob_runPipeline_created_fail]
    refine ⟨_, rfl, ?_⟩
    interval_cases i <;>
      simp [urlUpdates, simulateUpdates, completedUpdate, failedUpdate, applyUpdate,
        JobUpdate.none, initialJob, generate_results]
  · simp only [process_file]
    rw [getJob_runPipeline_created_fail]
    refine ⟨_, rfl, ?_⟩
    interval_cases i <;>
      simp [fileUpdates, simulateUpdates, completedUpdate, failedUpdate, applyUpdate,
        JobUpdate.none, initialJob, generate_results]
  · intro fl hfl
    cases fl with
    | none =>
        simp only [process_url]
        rw [getJob_runPipeline_created_ok]
        refine ⟨_, rfl, ?_, ?_⟩ <;>
          simp [urlUpdates, simulateUpdates, completedUpdate, failedUpdate, applyUpdate,
            JobUpdate.none, initialJob, generate_results]
    | some p =>
        obtain ⟨i₂, msg₂⟩ := p
        simp only [process_url]
        rw [getJob_runPipeline_created_fail]
        refine ⟨_, rfl, ?_, ?_⟩ <;> simp [failedUpdate, applyUpdate, JobUpdate.none]
  · intro fl hfl
    cases fl with
    | none =>
        simp only [process_file]
        rw [getJob_runPipeline_created_ok]
        refine ⟨_, rfl, ?_, ?_⟩ <;>
          simp [fileUpdates, simulateUpdates, completedUpdate, failedUpdate, applyUpdate,
            JobUpdate.none, initialJob, generate_results]
    | some p =>
        obtain ⟨i₂, msg₂⟩ := p
        simp only [process_file]
        rw [getJob_runPipeline_created_fail]
        refine ⟨_, rfl, ?_, ?_⟩ <;> simp [failedUpdate, applyUpdate, JobUpdate.none]

/-- C1 witness: the fail-fast theorem at a concrete job, failing at
point 3 with message `boom`. -/
theorem c1_witness :
    (∃ r : Job,
        getJob (process_url (create_job Store.empty "j1" "url" "u" "t0" [])
            "j1" "u" "t1" (some (3, "boom"))).1 "j1" = some r
        ∧ r.status = "failed" ∧ r.error = some "boom" ∧ r.results = Option.none
        ∧ r.progress = [0, 10, 25, 45, 65, 80, 95].getD 3 0 ∧ r.progress < 100)
    ∧ (∃ r : Job,
        getJob (process_file (create_job Store.empty "j1" "url" "u" "t0" [])
            "j1" "u" "t1" (some (3, "boom"))).1 "j1" = some r
        ∧ r.status = "failed" ∧ r.error = some "boom" ∧ r.results = Option.none
        ∧ r.progress = [0, 15, 25, 45, 65, 80, 95].getD 3 0 ∧ r.progress < 100)
    ∧ (∀ fl : Option (Nat × String), (∀ p, fl = some p → p.1 ≤ 6) →
        ∃ r : Job,
          getJob (process_url (create_job Store.empty "j1" "url" "u" "t0" [])
              "j1" "u" "t1" fl).1 "j1" = some r
          ∧ r.status ≠ "processing" ∧ r.status ≠ "pending")
    ∧ (∀ fl : Option (Nat × String), (∀ p, fl = some p → p.1 ≤ 6) →
        ∃ r : Job,
          getJob (process_file (create_job Store.empty "j1" "url" "u" "t0" [])
              "j1" "u" "t1" fl).1 "j1" = some r
          ∧ r.status ≠ "processing" ∧ r.status ≠ "pending") :=
  c1_fail_fast Store.empty "j1" "url" "u" "t0" "t1" "boom" [] 3 (by decide)

-- C2

/-- C2: for a job record that has reached a terminal status at the end
of a pipeline run (`urlUpdates` is the `process_url` run, `fileUpdates`
the `process_file` run): `completed` implies the results field is set
and the error field is unset, `failed` implies the error field is set
and the results field is unset; moreover at every point of the run —
every prefix of the updates as well as the terminal record — results
and error are never both set. -/
theorem c2_terminal_result_error_exclusive
    (s₀ : Store) (job_id input_type src created_at completed_at : String)
    (options : List (String × String)) (us : List JobUpdate)
    (hus : us = urlUpdates job_id src completed_at
         ∨ us = fileUpdates job_id src completed_at)
    (fl : Option (Nat × String)) (hfl : ∀ p, fl = some p → p.1 ≤ 6) :
    (∀ r : Job,
      getJob (runPipeline (create_job s₀ job_id input_type src created_at options)
          job_id us fl).1 job_id = some r →
        (r.status = "completed" → r.results.isSome ∧ r.error = Option.none)
        ∧ (r.status = "failed" → r.error.isSome ∧ r.results = Option.none)
        ∧ ¬(r.results.isSome ∧ r.error.isSome))
    ∧ (∀ k, k ≤ 7 → ∀ r : Job,
        getJob (runUpdates (create_job s₀ job_id input_type src created_at options)
            job_id (us.take k)) job_id = some r →
        ¬(r.results.isSome ∧ r.error.isSome)) := by
  constructor
  · intro r hr
    cases fl with
    | none =>
        rw [getJob_runPipeline_created_ok] at hr
        obtain rfl := Option.some.inj hr
        rcases hus with h | h <;> subst h <;>
          simp [urlUpdates, fileUpdates, simulateUpdates, completedUpdate, failedUpdate,
            applyUpdate, JobUpdate.none, initialJob, generate_results]
    | some p =>
        obtain ⟨i, msg⟩ := p
        have hi : i ≤ 6 := (hfl (i, msg) rfl)
        rw [getJob_runPipeline_created_fail] at hr
        obtain rfl := Option.some.inj hr
        rcases hus with h | h <;> subst h <;> interval_cases i <;>
          simp [urlUpdates, fileUpdates, simulateUpdates, completedUpdate, failedUpdate,
            applyUpdate, JobUpdate.none, initialJob, generate_results]
  · intro k hk r hr
    rw [getJob_runUpdates_created] at hr
    obtain rfl := Option.some.inj hr
    rcases hus with h | h <;> subst h <;> interval_cases k <;>
      simp [urlUpdates, fileUpdates, simulateUpdates, completedUpdate, failedUpdate,
        applyUpdate, JobUpdate.none, initialJob, generate_results]

/-- C2 witness: the exclusivity theorem at a concrete successful
`process_url` run. -/
theorem c2_witness :
    (∀ r : Job,
      getJob (runPipeline (create_job Store.empty "j1" "url" "u" "t0" [])
          "j1" (urlUpdates "j1" "u" "t1") Option.none).1 "j1" = some r →
        (r.status = "completed" → r.results.isSome ∧ r.error = Option.none)
        ∧ (r.status = "failed" → r.error.isSome ∧ r.results = Option.none)
        ∧ ¬(r.results.isSome ∧ r.error.isSome))
    ∧ (∀ k, k ≤ 7 → ∀ r : Job,
        getJob (runUpdates (create_job Store.empty "j1" "url" "u" "t0" [])
            "j1" ((urlUpdates "j1" "u" "t1").take k)) "j1" = some r →
        ¬(r.results.isSome ∧ r.error.isSome)) :=
  c2_terminal_result_error_exclusive Store.empty "j1" "url" "u" "t0" "t1" []
    (urlUpdates "j1" "u" "t1") (Or.inl rfl) Option.none (by simp)

-- C4

/-- C4: for every point in a job's lifecycle — the freshly created
record, every prefix of the pipeline's updates, and the terminal record
of a run with or without a failure — `progress = 100` holds exactly
when `status = "completed"`; in particular a failed job never has
progress 100. -/
theorem c4_progress_iff_completed
    (s₀ : Store) (job_id input_type src created_at completed_at : String)
    (options : List (String × String)) (us : List JobUpdate)
    (hus : us = urlUpdates job_id src completed_at
         ∨ us = fileUpdates job_id src completed_at)
    (fl : Option (Nat × String)) (hfl : ∀ p, fl = some p → p.1 ≤ 6) :
    (∀ k, k ≤ 7 → ∀ r : Job,
        getJob (runUpdates (create_job s₀ job_id input_type src created_at options)
            job_id (us.take k)) job_id = some r →
        (r.progress = 100 ↔ r.status = "completed"))
    ∧ (∀ r : Job,
        getJob (runPipeline (create_job s₀ job_id input_type src created_at options)
            job_id us fl).1 job_id = some r →
        (r.progress = 100 ↔ r.status = "completed")) := by
  constructor
  · intro k hk r hr
    rw [getJob_runUpdates_created] at hr
    obtain rfl := Option.some.inj hr
    rcases hus with h | h <;> subst h <;> interval_cases k <;>
      simp [urlUpdates, fileUpdates, simulateUpdates, completedUpdate, failedUpdate,
        applyUpdate, JobUpdate.none, initialJob, generate_results]
  · intro r hr
    cases fl with
    | none =>
        rw [getJob_runPipeline_created_ok] at hr
        obtain rfl := Option.some.inj hr
        rcases hus with h | h <;> subst h <;>
          simp [urlUpdates, fileUpdates, simulateUpdates, completedUpdate, failedUpdate,
            applyUpdate, JobUpdate.none, initialJob, generate_results]
    | some p =>
        obtain ⟨i, msg⟩ := p
        have hi : i ≤ 6 := (hfl (i, msg) rfl)
        rw [getJob_runPipeline_created_fail] at hr
        obtain rfl := Option.some.inj hr
        rcases hus with h | h <;> subst h <;> interval_cases i <;>
          simp [urlUpdates, fileUpdates, simulateUpdates, completedUpdate, failedUpdate,
            applyUpdate, JobUpdate.none, initialJob, generate_results]

/-- C4 witness: the iff theorem at a concrete `process_file` run failing
at point 5. -/
theorem c4_witness :
    (∀ k, k ≤ 7 → ∀ r : Job,
        getJob (runUpdates (create_job Store.empty "j1" "file" "a.mp4" "t0" [])
            "j1" ((fileUpdates "j1" "a.mp4" "t1").take k)) "j1" = some r →
        (r.progress = 100 ↔ r.status = "completed"))
    ∧ (∀ r : Job,
        getJob (runPipeline (create_job Store.empty "j1" "file" "a.mp4" "t0" [])
            "j1" (fileUpdates "j1" "a.mp4" "t1") (some (5, "oops"))).1 "j1" = some r →
        (r.progress = 100 ↔ r.status = "completed")) :=
  c4_progress_iff_completed Store.empty "j1" "file" "a.mp4" "t0" "t1" []
    (fileUpdates "j1" "a.mp4" "t1") (Or.inr rfl) (some (5, "oops")) (by simp)

-- C5

/-- C5: a job's progress is monotonically non-decreasing across the
successive updates applied to its record: each pipeline update takes
the record from progress at prefix `k` to progress at prefix `k + 1`
without decreasing it, and the `failed` update applied by the `except`
clause leaves the progress exactly where it was. -/
theorem c5_progress_monotone
    (s₀ : Store) (job_id input_type src created_at completed_at : String)
    (options : List (String × String)) (us : List JobUpdate)
    (hus : us = urlUpdates job_id src completed_at
         ∨ us = fileUpdates job_id src completed_at) :
    (∀ k, k ≤ 6 → ∀ r₁ r₂ : Job,
        getJob (runUpdates (create_job s₀ job_id input_type src created_at options)
            job_id (us.take k)) job_id = some r₁ →
        getJob (runUpdates (create_job s₀ job_id input_type src created_at options)
            job_id (us.take (k + 1))) job_id = some r₂ →
        r₁.progress ≤ r₂.progress)
    ∧ (∀ i, i ≤ 6 → ∀ msg : String, ∀ r₁ r₂ : Job,
        getJob (runUpdates (create_job s₀ job_id input_type src created_at options)
            job_id (us.take i)) job_id = some r₁ →
        getJob (runPipeline (create_job s₀ job_id input_type src created_at options)
            job_id us (some (i, msg))).1 job_id = some r₂ →
        r₂.progress = r₁.progress) := by
  constructor
  · intro k hk r₁ r₂ h₁ h₂
    rw [getJob_runUpdates_created] at h₁ h₂
    obtain rfl := Option.some.inj h₁
    obtain rfl := Option.some.inj h₂
    rcases hus with h | h <;> subst h <;> interval_cases k <;>
      simp [urlUpdates, fileUpdates, simulateUpdates, completedUpdate, failedUpdate,
        applyUpdate, JobUpdate.none, initialJob, generate_results]
  · intro i hi msg r₁ r₂ h₁ h₂
    rw [getJob_runUpdates_created] at h₁
    rw [getJob_runPipeline_created_fail] at h₂
    obtain rfl := Option.some.inj h₁
    obtain rfl := Option.some.inj h₂
    simp [failedUpdate, applyUpdate, JobUpdate.none]

/-- C5 witness: monotonicity at a concrete `process_url` run. -/
theorem c5_witness :
    (∀ k, k ≤ 6 → ∀ r₁ r₂ : Job,
        getJob (runUpdates (create_job Store.empty "j1" "url" "u" "t0" [])
            "j1" ((urlUpdates "j1" "u" "t1").take k)) "j1" = some r₁ →
        getJob (runUpdates (create_job Store.empty "j1" "url" "u" "t0" [])
            "j1" ((urlUpdates "j1" "u" "t1").take (k + 1))) "j1" = some r₂ →
        r₁.progress ≤ r₂.progress)
    ∧ (∀ i, i ≤ 6 → ∀ msg : String, ∀ r₁ r₂ : Job,
        getJob (runUpdates (create_job Store.empty "j1" "url" "u" "t0" [])
            "j1" ((urlUpdates "j1" "u" "t1").take i)) "j1" = some r₁ →
        getJob (runPipeline (create_job Store.empty "j1" "url" "u" "t0" [])
            "j1" (urlUpdates "j1" "u" "t1") (some (i, msg))).1 "j1" = some r₂ →
        r₂.progress = r₁.progress) :=
  c5_progress_monotone Store.empty "j1" "url" "u" "t0" "t1" []
    (urlUpdates "j1" "u" "t1") (Or.inl rfl)

-- C6

/-- C6: a validation failure — `POST /process/url` with a missing/empty
body or without a `source_url` field, or `POST /process/upload` with no
file part or an empty filename — is answered with the route's 400 error
before any job record is created: the store comes back exactly as it
went in, whatever processing outcome `fl` the pipeline would have had. -/
theorem c6_validation_rejected_before_create
    (s : Store) (job_id created_at completed_at : String)
    (it : Option String) (opts : Option (List (String × String)))
    (options : List (String × String)) (content : List Nat)
    (fl : Option (Nat × String)) :
    route_process_url s Option.none job_id created_at completed_at fl
        = (s, SubmitResponse.badRequest "source_url is required")
    ∧ route_process_url s (some ⟨Option.none, it, opts⟩) job_id created_at completed_at fl
        = (s, SubmitResponse.badRequest "source_url is required")
    ∧ route_process_upload s Option.none options job_id created_at completed_at fl
        = (s, SubmitResponse.badRequest "No file uploaded")
    ∧ route_process_upload s (some ⟨"", content⟩) options job_id created_at completed_at fl
        = (s, SubmitResponse.badRequest "No file selected") := by
  refine ⟨rfl, rfl, rfl, ?_⟩
  simp [route_process_upload]

-- C3

/-- C3 (counterexample): a valid `POST /process/url` submission on an
empty store, with no stage failure.  The route's handler runs the whole
pipeline inline before producing its response (`src/app.py:404-415`),
so a `GET /status/{job_id}` issued right after the submission response
sees status `completed` — not `pending` or `processing` as claimed. -/
theorem c3_counterexample :
    ((getJob (route_process_url Store.empty
          (some ⟨some "https://example.com/lecture.mp4", Option.none, Option.none⟩)
          "j1" "t0" "t1" Option.none).1 "j1").map Job.status)
        = some "completed"
    ∧ (route_process_url Store.empty
          (some ⟨some "https://example.com/lecture.mp4", Option.none, Option.none⟩)
          "j1" "t0" "t1" Option.none).2
        = SubmitResponse.created "j1" "created" "הועבר לעיבוד"
    ∧ ("completed" : String) ≠ "pending"
    ∧ ("completed" : String) ≠ "processing" :=
  ⟨rfl, rfl, by decide, by decide⟩

/-- C3 (amended): for every valid submission the handler does return the
created response carrying the job id, but only after the pipeline run
has finished: a `GET /status/{job_id}` issued right after the submission
response resolves the id with a terminal status — `completed` when no
stage failed, `failed` when one did — never `pending` or `processing`. -/
theorem c3_submission_resolves_terminal
    (s : Store) (b : UrlBody) (source_url : String) (f : UploadedFile)
    (options : List (String × String))
    (job_id created_at completed_at : String)
    (fl : Option (Nat × String))
    (hsrc : b.source_url = some source_url)
    (hfn : f.filename ≠ "")
    (hfl : ∀ p, fl = some p → p.1 ≤ 6) :
    ((route_process_url s (some b) job_id created_at completed_at fl).2
        = SubmitResponse.created job_id "created" "הועבר לעיבוד"
      ∧ ∃ r : Job,
          get_job_status (route_process_url s (some b) job_id created_at completed_at fl).1
              job_id = StatusResponse.ok r
          ∧ (r.status = "completed" ∨ r.status = "failed")
          ∧ r.status ≠ "pending" ∧ r.status ≠ "processing")
    ∧ ((route_process_upload s (some f) options job_id created_at completed_at fl).2
        = SubmitResponse.created job_id "created" "הקובץ הועלה והועבר לעיבוד"
      ∧ ∃ r : Job,
          get_job_status (route_process_upload s (some f) options job_id created_at
              completed_at fl).1 job_id = StatusResponse.ok r
          ∧ (r.status = "completed" ∨ r.status = "failed")
          ∧ r.status ≠ "pending" ∧ r.status ≠ "processing") := by
  obtain ⟨bsrc, bit, bopts⟩ := b
  obtain ⟨fname, fcontent⟩ := f
  simp only [UrlBody.source_url] at hsrc
  subst hsrc
  simp only [UploadedFile.filename] at hfn
  constructor
  · constructor
    · rfl
    · simp only [route_process_url, get_job_status]
      cases fl with
      | none =>
          rw [show (process_url (create_job s job_id (bit.getD "url") source_url
                created_at (bopts.getD [])) job_id source_url completed_at
                Option.none).1
              = (runPipeline (create_job s job_id (bit.getD "url") source_url
                  created_at (bopts.getD []))
                  job_id (urlUpdates job_id source_url completed_at) Option.none).1
              from rfl,
            getJob_runPipeline_created_ok]
          refine ⟨_, rfl, ?_, ?_, ?_⟩ <;>
            simp [urlUpdates, simulateUpdates, completedUpdate, applyUpdate,
              JobUpdate.none, initialJob]
      | some p =>
          obtain ⟨i, msg⟩ := p
          rw [show (process_url (create_job s job_id (bit.getD "url") source_url
                created_at (bopts.getD [])) job_id source_url completed_at
                (some (i, msg))).1
              = (runPipeline (create_job s job_id (bit.getD "url") source_url
                  created_at (bopts.getD []))
                  job_id (urlUpdates job_id source_url completed_at) (some (i, msg))).1
              from rfl,
            getJob_runPipeline_created_fail]
          refine ⟨_, rfl, ?_, ?_, ?_⟩ <;>
            simp [failedUpdate, applyUpdate, JobUpdate.none]
  · constructor
    · simp [route_process_upload, hfn]
    · simp only [route_process_upload, get_job_status]
      rw [if_neg hfn]
      cases fl with
      | none =>
          rw [show (process_file (create_job s job_id "file" fname created_at options)
                job_id fname completed_at Option.none).1
              = (runPipeline (create_job s job_id "file" fname created_at options)
                  job_id (fileUpdates job_id fname completed_at) Option.none).1
              from rfl,
            getJob_runPipeline_created_ok]
          refine ⟨_, rfl, ?_, ?_, ?_⟩ <;>
            simp [fileUpdates, simulateUpdates, completedUpdate, applyUpdate,
              JobUpdate.none, initialJob]
      | some p =>
          obtain ⟨i, msg⟩ := p
          rw [show (process_file (create_job s job_id "file" fname created_at options)
                job_id fname completed_at (some (i, msg))).1
              = (runPipeline (create_job s job_id "file" fname created_at options)
                  job_id (fileUpdates job_id fname completed_at) (some (i, msg))).1
              from rfl,
            getJob_runPipeline_created_fail]
          refine ⟨_, rfl, ?_, ?_, ?_⟩ <;>
            simp [failedUpdate, applyUpdate, JobUpdate.none]

/-- C3 witness: the amended theorem at a concrete URL body and upload,
with the pipeline failing at point 2. -/
theorem c3_witness :
    ((route_process_url Store.empty
          (some ⟨some "https://example.com/lecture.mp4", Option.none, Option.none⟩)
          "j1" "t0" "t1" (some (2, "boom"))).2
        = SubmitResponse.created "j1" "created" "הועבר לעיבוד"
      ∧ ∃ r : Job,
          get_job_status (route_process_url Store.empty
              (some ⟨some "https://example.com/lecture.mp4", Option.none, Option.none⟩)
              "j1" "t0" "t1" (some (2, "boom"))).1 "j1" = StatusResponse.ok r
          ∧ (r.status = "completed" ∨ r.status = "failed")
          ∧ r.status ≠ "pending" ∧ r.status ≠ "processing")
    ∧ ((route_process_upload Store.empty (some ⟨"lecture.mp4", [1, 2, 3]⟩) []
          "j1" "t0" "t1" (some (2, "boom"))).2
        = SubmitResponse.created "j1" "created" "הקובץ הועלה והועבר לעיבוד"
      ∧ ∃ r : Job,
          get_job_status (route_process_upload Store.empty
              (some ⟨"lecture.mp4", [1, 2, 3]⟩) [] "j1" "t0" "t1"
              (some (2, "boom"))).1 "j1" = StatusResponse.ok r
          ∧ (r.status = "completed" ∨ r.status = "failed")
          ∧ r.status ≠ "pending" ∧ r.status ≠ "processing") :=
  c3_submission_resolves_terminal Store.empty
    ⟨some "https://example.com/lecture.mp4", Option.none, Option.none⟩
    "https://example.com/lecture.mp4" ⟨"lecture.mp4", [1, 2, 3]⟩ []
    "j1" "t0" "t1" (some (2, "boom")) rfl (by decide) (by simp)

-- C8

/-- C8 (counterexample): a pipeline run that fails at point 3 reaches
the terminal status `failed` with `completed_at` still unset.  The code
sets `completed_at` only on the `completed` transition
(`src/app.py:158`, `204`), never in the `except` clause
(`src/app.py:166-170`, `212-216`), so the claim that `completed_at` is
set at the terminal transition "whether that terminal status is
'completed' or 'failed'" is false. -/
theorem c8_counterexample :
    ((getJob (process_url (create_job Store.empty "j1" "url" "u" "t0" [])
        "j1" "u" "t1" (some (3, "boom"))).1 "j1").map
      (fun r => (r.status, r.completed_at)))
      = some ("failed", Option.none) := rfl

/-- C8 (amended): `completed_at` is written exactly once, at the
transition into `completed`: it is unset on the created record and after
every proper prefix of the pipeline's updates, it is set (to the
terminal timestamp) by the final successful update — after which no
further update occurs — and on a run that terminates as `failed` it is
never set at all. -/
theorem c8_completed_at_only_on_success
    (s₀ : Store) (job_id input_type src created_at completed_at : String)
    (options : List (String × String)) (us : List JobUpdate)
    (hus : us = urlUpdates job_id src completed_at
         ∨ us = fileUpdates job_id src completed_at) :
    (∀ k, k ≤ 6 → ∀ r : Job,
        getJob (runUpdates (create_job s₀ job_id input_type src created_at options)
            job_id (us.take k)) job_id = some r →
        r.completed_at = Option.none)
    ∧ (∀ r : Job,
        getJob (runPipeline (create_job s₀ job_id input_type src created_at options)
            job_id us Option.none).1 job_id = some r →
        r.completed_at = some completed_at ∧ r.status = "completed")
    ∧ (∀ i, i ≤ 6 → ∀ msg : String, ∀ r : Job,
        getJob (runPipeline (create_job s₀ job_id input_type src created_at options)
            job_id us (some (i, msg))).1 job_id = some r →
        r.completed_at = Option.none ∧ r.status = "failed") := by
  refine ⟨?_, ?_, ?_⟩
  · intro k hk r hr
    rw [getJob_runUpdates_created] at hr
    obtain rfl := Option.some.inj hr
    rcases hus with h | h <;> subst h <;> interval_cases k <;>
      simp [urlUpdates, fileUpdates, simulateUpdates, completedUpdate, failedUpdate,
        applyUpdate, JobUpdate.none, initialJob, generate_results]
  · intro r hr
    rw [getJob_runPipeline_created_ok] at hr
    obtain rfl := Option.some.inj hr
    rcases hus with h | h <;> subst h <;>
      simp [urlUpdates, fileUpdates, simulateUpdates, completedUpdate, failedUpdate,
        applyUpdate, JobUpdate.none, initialJob, generate_results]
  · intro i hi msg r hr
    rw [getJob_runPipeline_created_fail] at hr
    obtain rfl := Option.some.inj hr
    rcases hus with h | h <;> subst h <;> interval_cases i <;>
      simp [urlUpdates, fileUpdates, simulateUpdates, completedUpdate, failedUpdate,
        applyUpdate, JobUpdate.none, initialJob, generate_results]

/-- C8 witness: the amended theorem at a concrete `process_url` run. -/
theorem c8_witness :
    (∀ k, k ≤ 6 → ∀ r : Job,
        getJob (runUpdates (create_job Store.empty "j1" "url" "u" "t0" [])
            "j1" ((urlUpdates "j1" "u" "t1").take k)) "j1" = some r →
        r.completed_at = Option.none)
    ∧ (∀ r : Job,
        getJob (runPipeline (create_job Store.empty "j1" "url" "u" "t0" [])
            "j1" (urlUpdates "j1" "u" "t1") Option.none).1 "j1" = some r →
        r.completed_at = some "t1" ∧ r.status = "completed")
    ∧ (∀ i, i ≤ 6 → ∀ msg : String, ∀ r : Job,
        getJob (runPipeline (create_job Store.empty "j1" "url" "u" "t0" [])
            "j1" (urlUpdates "j1" "u" "t1") (some (i, msg))).1 "j1" = some r →
        r.completed_at = Option.none ∧ r.status = "failed") :=
  c8_completed_at_only_on_success Store.empty "j1" "url" "u" "t0" "t1" []
    (urlUpdates "j1" "u" "t1") (Or.inl rfl)

-- C7

theorem string_data_inj {a b : String} (h : a.data = b.data) : a = b := by
  cases a
  cases b
  simp_all

/-- An artifact file name `job_id ++ "_" ++ ft ++ ".pdf"` equals the
literal entry `job_id ++ lit` exactly when `ft` is the entry's stem,
where `lit` decomposes as `"_" ++ stem ++ ".pdf"` at the character
level. -/
theorem artifact_eq_iff (job_id ft stem lit : String)
    (hl : lit.data = "_".data ++ stem.data ++ ".pdf".data) :
    (job_id ++ "_" ++ ft ++ ".pdf" = job_id ++ lit) ↔ ft = stem := by
  constructor
  · intro h
    have hd := congrArg String.data h
    simp only [String.data_append, hl, List.append_assoc] at hd
    have h1 := List.append_cancel_left hd
    have h2 := List.append_cancel_left h1
    have h3 := List.append_cancel_right h2
    exact string_data_inj h3
  · rintro rfl
    apply string_data_inj
    simp [String.data_append, hl, List.append_assoc]

/-- The valid `file_type` values of the download route are exactly the
stems of the completed job's `generated_files` entries. -/
theorem artifact_mem_iff (job_id ft it src : String) :
    ((job_id ++ "_" ++ ft ++ ".pdf")
        ∈ (generate_results job_id it src).generated_files)
      ↔ ft ∈ (["transcript", "summary", "board_content"] : List String) := by
  simp only [generate_results, List.mem_cons, List.not_mem_nil, or_false]
  rw [artifact_eq_iff job_id ft "transcript" "_transcript.pdf" (by decide),
    artifact_eq_iff job_id ft "summary" "_summary.pdf" (by decide),
    artifact_eq_iff job_id ft "board_content" "_board_content.pdf" (by decide)]

/-- C7: the `GET /download/{job_id}/{file_type}` handler never mutates
the store; an unknown id is answered 404 before anything else is
checked; a known job that is not `completed` is answered 400; a
`completed` job with a `file_type` outside the three valid ones is
answered 400; each valid `file_type` of a `completed` job is answered
with the generated PDF as an attachment; and for a job whose results
are the pipeline's generated results, the valid `file_type` values are
exactly those whose artifact file name appears among the job's
`generated_files`. -/
theorem c7_download_contract (s : Store) (job_id file_type it src : String) :
    ((download_file s job_id file_type).1 = s)
    ∧ (getJob s job_id = Option.none →
        download_file s job_id file_type
          = (s, DownloadResponse.notFound "Job not found"))
    ∧ (∀ job : Job, getJob s job_id = some job → job.status ≠ "completed" →
        download_file s job_id file_type
          = (s, DownloadResponse.notCompleted "Job not completed yet"))
    ∧ (∀ job : Job, getJob s job_id = some job → job.status = "completed" →
        file_type ∉ (["transcript", "summary", "board_content"] : List String) →
        download_file s job_id file_type
          = (s, DownloadResponse.invalidFileType "Invalid file type"))
    ∧ (∀ job : Job, getJob s job_id = some job → job.status = "completed" →
        download_file s job_id "transcript"
            = (s, DownloadResponse.fileAttachment (generate_transcript_pdf job_id)
                ("transcript_" ++ job_id ++ ".pdf") "application/pdf")
        ∧ download_file s job_id "summary"
            = (s, DownloadResponse.fileAttachment (generate_summary_pdf job_id)
                ("summary_" ++ job_id ++ ".pdf") "application/pdf")
        ∧ download_file s job_id "board_content"
            = (s, DownloadResponse.fileAttachment (generate_board_content_pdf job_id)
                ("board_content_" ++ job_id ++ ".pdf") "application/pdf"))
    ∧ (∀ job : Job, getJob s job_id = some job →
        job.results = some (generate_results job_id it src) →
        (file_type ∈ (["transcript", "summary", "board_content"] : List String)
          ↔ (job_id ++ "_" ++ file_type ++ ".pdf")
              ∈ (generate_results job_id it src).generated_files)) := by
  refine ⟨?_, ?_, ?_, ?_, ?_, ?_⟩
  · rcases h : getJob s job_id with _ | job <;> simp only [download_file, h]
    split_ifs <;> rfl
  · intro h
    simp [download_file, h]
  · intro job hjob hst
    simp [download_file, hjob, hst]
  · intro job hjob hst hft
    simp only [List.mem_cons, List.not_mem_nil, or_false, not_or] at hft
    obtain ⟨h1, h2, h3⟩ := hft
    simp [download_file, hjob, hst, h1, h2, h3]
  · intro job hjob hst
    refine ⟨?_, ?_, ?_⟩ <;> simp [download_file, hjob, hst]
  · intro job hjob hres
    exact (artifact_mem_iff job_id file_type it src).symm

/-- C7 witness: the download contract at the store produced by a
successful concrete `process_url` run (whose job `j1` is `completed`
with the generated results), applied at `file_type = "bogus"`. -/
theorem c7_witness :
    ((download_file (process_url (create_job Store.empty "j1" "url" "u" "t0" [])
        "j1" "u" "t1" Option.none).1 "j1" "bogus").1
      = (process_url (create_job Store.empty "j1" "url" "u" "t0" [])
          "j1" "u" "t1" Option.none).1)
    ∧ (getJob (process_url (create_job Store.empty "j1" "url" "u" "t0" [])
          "j1" "u" "t1" Option.none).1 "j1" = Option.none →
        download_file (process_url (create_job Store.empty "j1" "url" "u" "t0" [])
            "j1" "u" "t1" Option.none).1 "j1" "bogus"
          = ((process_url (create_job Store.empty "j1" "url" "u" "t0" [])
              "j1" "u" "t1" Option.none).1,
             DownloadResponse.notFound "Job not found"))
    ∧ (∀ job : Job,
        getJob (process_url (create_job Store.empty "j1" "url" "u" "t0" [])
            "j1" "u" "t1" Option.none).1 "j1" = some job →
        job.status ≠ "completed" →
        download_file (process_url (create_job Store.empty "j1" "url" "u" "t0" [])
            "j1" "u" "t1" Option.none).1 "j1" "bogus"
          = ((process_url (create_job Store.empty "j1" "url" "u" "t0" [])
              "j1" "u" "t1" Option.none).1,
             DownloadResponse.notCompleted "Job not completed yet"))
    ∧ (∀ job : Job,
        getJob (process_url (create_job Store.empty "j1" "url" "u" "t0" [])
            "j1" "u" "t1" Option.none).1 "j1" = some job →
        job.status = "completed" →
        "bogus" ∉ (["transcript", "summary", "board_content"] : List String) →
        download_file (process_url (create_job Store.empty "j1" "url" "u" "t0" [])
            "j1" "u" "t1" Option.none).1 "j1" "bogus"
          = ((process_url (create_job Store.empty "j1" "url" "u" "t0" [])
              "j1" "u" "t1" Option.none).1,
             DownloadResponse.invalidFileType "Invalid file type"))
    ∧ (∀ job : Job,
        getJob (process_url (create_job Store.empty "j1" "url" "u" "t0" [])
            "j1" "u" "t1" Option.none).1 "j1" = some job →
        job.status = "completed" →
        download_file (process_url (create_job Store.empty "j1" "url" "u" "t0" [])
            "j1" "u" "t1" Option.none).1 "j1" "transcript"
            = ((process_url (create_job Store.empty "j1" "url" "u" "t0" [])
                "j1" "u" "t1" Option.none).1,
               DownloadResponse.fileAttachment (generate_transcript_pdf "j1")
                 ("transcript_" ++ "j1" ++ ".pdf") "application/pdf")
        ∧ download_file (process_url (create_job Store.empty "j1" "url" "u" "t0" [])
            "j1" "u" "t1" Option.none).1 "j1" "summary"
            = ((process_url (create_job Store.empty "j1" "url" "u" "t0" [])
                "j1" "u" "t1" Option.none).1,
               DownloadResponse.fileAttachment (generate_summary_pdf "j1")
                 ("summary_" ++ "j1" ++ ".pdf") "application/pdf")
        ∧ download_file (process_url (create_job Store.empty "j1" "url" "u" "t0" [])
            "j1" "u" "t1" Option.none).1 "j1" "board_content"
            = ((process_url (create_job Store.empty "j1" "url" "u" "t0" [])
                "j1" "u" "t1" Option.none).1,
               DownloadResponse.fileAttachment (generate_board_content_pdf "j1")
                 ("board_content_" ++ "j1" ++ ".pdf") "application/pdf"))
    ∧ (∀ job : Job,
        getJob (process_url (create_job Store.empty "j1" "url" "u" "t0" [])
            "j1" "u" "t1" Option.none).1 "j1" = some job →
        job.results = some (generate_results "j1" "url" "u") →
        ("bogus" ∈ (["transcript", "summary", "board_content"] : List String)
          ↔ ("j1" ++ "_" ++ "bogus" ++ ".pdf")
              ∈ (generate_results "j1" "url" "u").generated_files)) :=
  c7_download_contract (process_url (create_job Store.empty "j1" "url" "u" "t0" [])
    "j1" "u" "t1" Option.none).1 "j1" "bogus" "url" "u"

-- C9

/-- C9 (counterexample): `update_job` and `delete_job` on an id absent
from the store return the store unchanged — they are total functions
into `Store`, mirroring that the Python methods return `None`
unconditionally and raise nothing — whereas the spec's contract
(`update_job_specContract` / `delete_job_specContract`, built from the
spec's words `-> void or NotFound`) reports `NotFound` (`Option.none`)
on the very same input.  So the claim that the code reports a NotFound
outcome "as opposed to silently doing nothing" is false: it silently
does nothing. -/
theorem c9_counterexample :
    update_job Store.empty "j1" JobUpdate.none = Store.empty
    ∧ delete_job Store.empty "j1" = Store.empty
    ∧ update_job_specContract Store.empty "j1" JobUpdate.none = Option.none
    ∧ delete_job_specContract Store.empty "j1" = Option.none :=
  ⟨rfl, rfl, rfl, rfl⟩

/-- C9 (amended): when called with an id not present in the store,
`update_job` and `delete_job` silently do nothing — the store is
unchanged and the caller receives no NotFound signal (both methods
return void unconditionally); when called with a present id they
succeed: `update_job` merges the updates into that id's record and
`delete_job` removes exactly one record. -/
theorem c9_update_delete_silent_on_absent
    (s : Store) (id : String) (u : JobUpdate) :
    (getJob s id = Option.none →
        update_job s id u = s ∧ delete_job s id = s)
    ∧ (∀ j, getJob s id = some j →
        getJob (update_job s id u) id = some (applyUpdate j u)
        ∧ (delete_job s id).length + 1 = s.length) := by
  constructor
  · intro h
    exact ⟨update_job_absent s id u h, delete_job_absent s id h⟩
  · intro j hj
    constructor
    · rw [getJob_update_self, hj]
      rfl
    · exact delete_job_length s id (by rw [hj]; rfl)

/-- C9 witness: the amended theorem applied to a concrete store holding
one job, at an absent id and at the present id. -/
theorem c9_witness :
    (getJob (create_job Store.empty "j1" "url" "u" "t0" []) "nope" = Option.none →
        update_job (create_job Store.empty "j1" "url" "u" "t0" []) "nope" JobUpdate.none
          = create_job Store.empty "j1" "url" "u" "t0" []
        ∧ delete_job (create_job Store.empty "j1" "url" "u" "t0" []) "nope"
          = create_job Store.empty "j1" "url" "u" "t0" [])
    ∧ (∀ j, getJob (create_job Store.empty "j1" "url" "u" "t0" []) "nope" = some j →
        getJob (update_job (create_job Store.empty "j1" "url" "u" "t0" []) "nope" JobUpdate.none) "nope"
          = some (applyUpdate j JobUpdate.none)
        ∧ (delete_job (create_job Store.empty "j1" "url" "u" "t0" []) "nope").length + 1
          = (create_job Store.empty "j1" "url" "u" "t0" []).length) :=
  c9_update_delete_silent_on_absent (create_job Store.empty "j1" "url" "u" "t0" []) "nope" JobUpdate.none

-- C10

/-- C10: a pipeline run (`process_url` or `process_file`) for one job
mutates only that job's record: every other id resolves to exactly the
same record before and after the whole run, for every possible failure
behaviour of the run. -/
theorem c10_pipeline_frame
    (s : Store) (job_id k url filename completed_at : String)
    (fl : Option (Nat × String)) (hk : k ≠ job_id) :
    getJob (process_url s job_id url completed_at fl).1 k = getJob s k
    ∧ getJob (process_file s job_id filename completed_at fl).1 k = getJob s k :=
  ⟨getJob_runPipeline_ne s job_id k (urlUpdates job_id url completed_at) fl hk,
   getJob_runPipeline_ne s job_id k (fileUpdates job_id filename completed_at) fl hk⟩

/-- C10 witness: the frame theorem applied at a concrete store holding
two jobs, running job `j1`'s pipeline and observing `k1`. -/
theorem c10_witness :
    getJob (process_url (create_job (create_job Store.empty "k1" "url" "u0" "t" [])
        "j1" "url" "u" "t" []) "j1" "u" "t1" Option.none).1 "k1"
      = getJob (create_job (create_job Store.empty "k1" "url" "u0" "t" [])
          "j1" "url" "u" "t" []) "k1"
    ∧ getJob (process_file (create_job (create_job Store.empty "k1" "url" "u0" "t" [])
        "j1" "url" "u" "t" []) "j1" "f.mp4" "t1" Option.none).1 "k1"
      = getJob (create_job (create_job Store.empty "k1" "url" "u0" "t" [])
          "j1" "url" "u" "t" []) "k1" :=
  c10_pipeline_frame
    (create_job (create_job Store.empty "k1" "url" "u0" "t" []) "j1" "url" "u" "t" [])
    "j1" "k1" "u" "f.mp4" "t1" Option.none (by decide)

end HebrewBackend
